import Mathlib

/-
Shallow embedding of the gortp transport layer (package rtp):
the TCP backend (transportTCP.go) and the multicast UDP backend
(transportMulticast.go, first variant), together with the shared
packet/address data model they use.

Machine integers of the Go code are modelled as Nat or Int (Go `int`
fields that the code can drive below zero, such as a packet's inUse,
are Int).  Go slice expressions that can panic are modelled with
Except GoPanic; a Go runtime panic aborts the surrounding control flow.
-/

namespace GoRtp

/-- Modelled from the spec: the shared fixed buffer-size constant
(defaultBufferSize) used both for the receive scratch buffer and for the
capacity of every packet buffer.  The constant itself is declared in a
repository file outside the sources at hand; the spec describes it as a
network MTU-scale constant shared by all backends. -/
def defaultBufferSize : Nat := 1500

/-- Modelled from the spec: an Address is a triple of IP address and the
two port numbers (RTP data port, RTCP control port).  The IP address is
abstracted to a Nat identifier; ports are Nat. -/
structure Address where
  IpAddr : Nat
  DataPort : Nat
  CtrlPort : Nat
deriving DecidableEq

/-- Modelled from the spec: a Data (RTP) packet: a fixed-capacity byte
buffer, the count of valid bytes (Go int, hence Int here) and the sender
address filled in by the receive loop. -/
structure DataPacket where
  buffer : List Nat
  inUse : Int
  fromAddr : Address
deriving DecidableEq

/-- Modelled from the spec: a Control (RTCP) packet, same layout as a
data packet. -/
structure CtrlPacket where
  buffer : List Nat
  inUse : Int
  fromAddr : Address
deriving DecidableEq

/-- Modelled from the spec: newDataPacket() allocates a zeroed packet
with inUse = 0 and a buffer of the shared fixed capacity. -/
def newDataPacket : DataPacket :=
  { buffer := List.replicate defaultBufferSize 0
    inUse := 0
    fromAddr := { IpAddr := 0, DataPort := 0, CtrlPort := 0 } }

/-- Modelled from the spec: newCtrlPacket() allocates a zeroed control
packet with inUse = 0 and a buffer of the shared fixed capacity (the Go
call also returns a second value, ignored at the use site in the
receive loop). -/
def newCtrlPacket : CtrlPacket :=
  { buffer := List.replicate defaultBufferSize 0
    inUse := 0
    fromAddr := { IpAddr := 0, DataPort := 0, CtrlPort := 0 } }

/-- A Go runtime panic raised by a slice expression whose bounds are out
of range. -/
inductive GoPanic where
  | sliceOutOfRange
deriving DecidableEq

/-- Go `copy(dst, src)`: copies min(len(dst), len(src)) elements of src
onto the front of dst, leaving the tail of dst unchanged; the length of
dst is preserved. -/
def goCopy (dst src : List Nat) : List Nat :=
  src.take dst.length ++ dst.drop (min dst.length src.length)

theorem goCopy_length (dst src : List Nat) : (goCopy dst src).length = dst.length := by
  simp [goCopy]

/-- If src fits into dst, the first (length of src) elements of the copy
result are exactly src. -/
theorem goCopy_take (dst src : List Nat) (h : src.length ≤ dst.length) :
    (goCopy dst src).take src.length = src := by
  have htake : src.take dst.length = src := List.take_of_length_le h
  simp [goCopy, htake]

/-- transportMulticast.go, readDataPacket loop body (lines 205 to 210 of
the first variant): on a successful ReadFromUDP of the byte list `data`
(so n = length of data, written into the front of the scratch buffer)
from sender (senderIp, senderPort), allocate a fresh data packet, fill
fromAddr from the sender address with CtrlPort zero, set inUse to n and
copy buf[0:n] into the packet buffer.  The slice buf[0:n] panics when n
exceeds the scratch-buffer length (unreachable from a real read, which
bounds n by that length). -/
def mkMcastDataPacket (data : List Nat) (senderIp senderPort : Nat) :
    Except GoPanic DataPacket :=
  if data.length ≤ defaultBufferSize then
    Except.ok
      { buffer := goCopy newDataPacket.buffer data
        inUse := (data.length : Int)
        fromAddr := { IpAddr := senderIp, DataPort := senderPort, CtrlPort := 0 } }
  else Except.error GoPanic.sliceOutOfRange

/-- transportMulticast.go, readCtrlPacket loop body (lines 236 to 241 of
the first variant): same construction as the data path but the sender
port goes to CtrlPort and DataPort is zero. -/
def mkMcastCtrlPacket (data : List Nat) (senderIp senderPort : Nat) :
    Except GoPanic CtrlPacket :=
  if data.length ≤ defaultBufferSize then
    Except.ok
      { buffer := goCopy newCtrlPacket.buffer data
        inUse := (data.length : Int)
        fromAddr := { IpAddr := senderIp, DataPort := 0, CtrlPort := senderPort } }
  else Except.error GoPanic.sliceOutOfRange

/-- transportTCP.go, readDataPacket loop body (lines 106 to 112): on a
successful Read of the byte list `data` (n = length of data), allocate a
fresh data packet, fill fromAddr from the stored remote TCP address with
CtrlPort zero, set inUse to n-2 and copy buf[2:n] into the packet
buffer.  The slice buf[2:n] panics when n is below 2 (note that the Go
statement rp.inUse = n-2 has already executed at that point) and when n
exceeds the scratch-buffer length. -/
def mkTcpDataPacket (remoteIp remotePort : Nat) (data : List Nat) :
    Except GoPanic DataPacket :=
  if 2 ≤ data.length ∧ data.length ≤ defaultBufferSize then
    Except.ok
      { buffer := goCopy newDataPacket.buffer (data.drop 2)
        inUse := (data.length : Int) - 2
        fromAddr := { IpAddr := remoteIp, DataPort := remotePort, CtrlPort := 0 } }
  else Except.error GoPanic.sliceOutOfRange

/-- Modelled from the spec: the two termination-reason values a receive
loop sends on the end channel (declared in a repository file outside the
sources at hand). -/
inductive TransportEndValue where
  | DataTransportRecvStopped
  | CtrlTransportRecvStopped
deriving DecidableEq

/-- Modelled from the spec: TransportCommon, the shared state embedded by
every backend: the two stop flags and the end channel.  The channel is
modelled by an Option Nat channel identifier; none is Go's nil channel
(no SetEndChannel call yet), on which a send can never complete. -/
structure TransportCommon where
  dataRecvStop : Bool
  ctrlRecvStop : Bool
  transportEnd : Option Nat
deriving DecidableEq

/-- transportTCP.go lines 71 to 84 and transportMulticast.go lines 132 to
147: CloseRecv sets both stop flags to true (the socket close is
commented out in the source) and touches nothing else. -/
def TransportCommon.CloseRecv (tp : TransportCommon) : TransportCommon :=
  { tp with dataRecvStop := true, ctrlRecvStop := true }

/-- transportTCP.go lines 87 to 89 and transportMulticast.go lines 149 to
151: SetEndChannel stores the given channel in transportEnd. -/
def TransportCommon.SetEndChannel (tp : TransportCommon) (ch : Nat) : TransportCommon :=
  { tp with transportEnd := some ch }

/-- The outcome of one socket read, as seen by a receive loop: a
successful read of the byte list `data` from the given sender address, a
read-deadline timeout error, or any other (fatal) read error. -/
inductive ReadResult where
  | ok (data : List Nat) (senderIp senderPort : Nat)
  | timeout
  | fatal
deriving DecidableEq

/-- The observable events of one receive-loop run, in order: a read
attempt on the socket, a delivery to the upper layer (OnRecvData or
OnRecvCtrl), the close of the loop's own socket, and the send of a
termination value on the end channel. -/
inductive RecvEvent where
  | readAttempt
  | deliveredData (p : DataPacket)
  | deliveredCtrl (p : CtrlPacket)
  | socketClosed
  | signaled (v : TransportEndValue)
deriving DecidableEq

/-- How a (fuel-bounded) receive-loop run ended: still inside the loop
when the fuel ran out; loop exited, socket closed and the termination
value sent; loop exited and socket closed but the send is blocked forever
on a nil end channel; or a Go panic aborted the loop. -/
inductive LoopOutcome where
  | stillRunning
  | terminated
  | blockedOnNilChannel
  | panicked
deriving DecidableEq

def isSignal : RecvEvent → Bool
  | RecvEvent.signaled _ => true
  | _ => false

def isClose : RecvEvent → Bool
  | RecvEvent.socketClosed => true
  | _ => false

def isRead : RecvEvent → Bool
  | RecvEvent.readAttempt => true
  | _ => false

/-- Number of termination values sent on the end channel in a trace. -/
def signalCount (t : List RecvEvent) : Nat := t.countP isSignal

/-- Number of socket closes in a trace. -/
def closeCount (t : List RecvEvent) : Nat := t.countP isClose

/-- The environment of one receive-loop run: the value of the loop's stop
flag as observed at its check in iteration i, and the result of the read
of iteration i. -/
structure LoopSched where
  stop : Nat → Bool
  read : Nat → ReadResult

/-- The stop flag as the loop observes it at the check of iteration i,
when the owner's CloseRecv store becomes visible to the loop at iteration
k (none: no visible store; the flag stays at the value the loop reset it
to on entry). -/
def stopFlagAt (ownerSetAt : Option Nat) (i : Nat) : Bool :=
  match ownerSetAt with
  | none => false
  | some k => decide (k ≤ i)

/-- The loop epilogue shared by every exit by break, transportTCP.go
lines 116 to 117 and transportMulticast.go lines 216 to 217 and 247 to
248: close the loop's own socket, then send the termination value on the
end channel.  On a nil channel (no SetEndChannel call) the send blocks
forever, so no signal event is produced and the loop never reaches the
terminated outcome. -/
def loopEpilogue (endCh : Option Nat) (endVal : TransportEndValue) :
    List RecvEvent × LoopOutcome :=
  match endCh with
  | some _ => ([RecvEvent.socketClosed, RecvEvent.signaled endVal], LoopOutcome.terminated)
  | none => ([RecvEvent.socketClosed], LoopOutcome.blockedOnNilChannel)

/-- The shared receive-loop pattern, duplicated per backend in the source
(transportTCP.go lines 94 to 115, transportMulticast.go lines 193 to 215
and 224 to 246), parameterised by the packet construction and delivery of
the success case and by the termination value.  One iteration: arm the
read deadline, read (one readAttempt event), then check the stop flag and
break if set; on a timeout error continue with the next iteration; on any
other error break; on success construct the packet, deliver it to the
upper layer, and continue.  A Go panic inside the packet construction
aborts loop, epilogue and all (the goroutine dies unwinding).  Fuel
bounds the number of iterations modelled; running out of fuel means the
loop is still running. -/
def runRecvLoop (deliver : List Nat → Nat → Nat → Except GoPanic RecvEvent)
    (endVal : TransportEndValue) (endCh : Option Nat) (sched : LoopSched) :
    Nat → Nat → List RecvEvent × LoopOutcome
  | 0, _ => ([], LoopOutcome.stillRunning)
  | fuel + 1, i =>
    if sched.stop i then
      (RecvEvent.readAttempt :: (loopEpilogue endCh endVal).1, (loopEpilogue endCh endVal).2)
    else
      match sched.read i with
      | ReadResult.timeout =>
        let r := runRecvLoop deliver endVal endCh sched fuel (i + 1)
        (RecvEvent.readAttempt :: r.1, r.2)
      | ReadResult.fatal =>
        (RecvEvent.readAttempt :: (loopEpilogue endCh endVal).1, (loopEpilogue endCh endVal).2)
      | ReadResult.ok data sip spt =>
        match deliver data sip spt with
        | Except.error _ => ([RecvEvent.readAttempt], LoopOutcome.panicked)
        | Except.ok ev =>
          let r := runRecvLoop deliver endVal endCh sched fuel (i + 1)
          (RecvEvent.readAttempt :: ev :: r.1, r.2)

/-- Success case of the multicast data loop: construct the packet from
the read and hand it to the upper layer's OnRecvData. -/
def mcastDataDeliver (data : List Nat) (sip spt : Nat) : Except GoPanic RecvEvent :=
  Except.map RecvEvent.deliveredData (mkMcastDataPacket data sip spt)

/-- Success case of the multicast control loop: construct the packet from
the read and hand it to the upper layer's OnRecvCtrl. -/
def mcastCtrlDeliver (data : List Nat) (sip spt : Nat) : Except GoPanic RecvEvent :=
  Except.map RecvEvent.deliveredCtrl (mkMcastCtrlPacket data sip spt)

/-- Success case of the TCP data loop: the sender address of the read is
not reported by Read, so fromAddr is filled from the stored remote TCP
address instead; the read's sender arguments are ignored. -/
def tcpDeliver (remoteIp remotePort : Nat) (data : List Nat) (_sip _spt : Nat) :
    Except GoPanic RecvEvent :=
  Except.map RecvEvent.deliveredData (mkTcpDataPacket remoteIp remotePort data)

/-- The for-loop of TransportMulticast.readDataPacket (transportMulticast.go
lines 193 to 215), started at iteration i with the given fuel. -/
def TransportMulticast.readDataLoop (endCh : Option Nat) (sched : LoopSched)
    (fuel i : Nat) : List RecvEvent × LoopOutcome :=
  runRecvLoop mcastDataDeliver TransportEndValue.DataTransportRecvStopped endCh sched fuel i

/-- The for-loop of TransportMulticast.readCtrlPacket (transportMulticast.go
lines 224 to 246), started at iteration i with the given fuel. -/
def TransportMulticast.readCtrlLoop (endCh : Option Nat) (sched : LoopSched)
    (fuel i : Nat) : List RecvEvent × LoopOutcome :=
  runRecvLoop mcastCtrlDeliver TransportEndValue.CtrlTransportRecvStopped endCh sched fuel i

/-- The for-loop of TransportTCP.readDataPacket (transportTCP.go lines 94
to 115), started at iteration i with the given fuel. -/
def TransportTCP.readDataLoop (remoteIp remotePort : Nat) (endCh : Option Nat)
    (sched : LoopSched) (fuel i : Nat) : List RecvEvent × LoopOutcome :=
  runRecvLoop (tcpDeliver remoteIp remotePort) TransportEndValue.DataTransportRecvStopped
    endCh sched fuel i

/-- TransportMulticast.readDataPacket (transportMulticast.go lines 189 to
218): its first statement resets the stop flag to false, overwriting any
earlier store; then the loop runs from iteration 0.  The flag the loop
observes at iteration i is the reset value, or true once a later
CloseRecv store becomes visible (at iteration ownerSetAt). -/
def TransportMulticast.readDataPacket (tp : TransportCommon) (ownerSetAt : Option Nat)
    (reads : Nat → ReadResult) (fuel : Nat) : List RecvEvent × LoopOutcome :=
  let tpR := { tp with dataRecvStop := false }
  TransportMulticast.readDataLoop tpR.transportEnd
    { stop := fun i => tpR.dataRecvStop || stopFlagAt ownerSetAt i, read := reads } fuel 0

/-- TransportMulticast.readCtrlPacket (transportMulticast.go lines 220 to
249): first statement resets the control stop flag to false, then the
loop runs from iteration 0. -/
def TransportMulticast.readCtrlPacket (tp : TransportCommon) (ownerSetAt : Option Nat)
    (reads : Nat → ReadResult) (fuel : Nat) : List RecvEvent × LoopOutcome :=
  let tpR := { tp with ctrlRecvStop := false }
  TransportMulticast.readCtrlLoop tpR.transportEnd
    { stop := fun i => tpR.ctrlRecvStop || stopFlagAt ownerSetAt i, read := reads } fuel 0

/-- TransportTCP.readDataPacket (transportTCP.go lines 91 to 118): first
statement resets the stop flag to false, then the loop runs from
iteration 0. -/
def TransportTCP.readDataPacket (tp : TransportCommon) (remoteIp remotePort : Nat)
    (ownerSetAt : Option Nat) (reads : Nat → ReadResult) (fuel : Nat) :
    List RecvEvent × LoopOutcome :=
  let tpR := { tp with dataRecvStop := false }
  TransportTCP.readDataLoop remoteIp remotePort tpR.transportEnd
    { stop := fun i => tpR.dataRecvStop || stopFlagAt ownerSetAt i, read := reads } fuel 0

/-- A setup error returned by a ListenOnTransports implementation; the
constructors mirror the fmt.Errorf wrappings of the multicast setup
(transportMulticast.go lines 81 and 92, first variant).  Underlying
network errors are abstracted to Nat identifiers. -/
inductive SetupError where
  | listenPacketFailed (e : Nat)
  | joinGroupFailed (e : Nat)
deriving DecidableEq

/-- The environment of one run of the multicast setup: the outcomes of
the three external socket calls it makes. -/
structure McastSetupEnv where
  listenPacketResult : Except Nat Unit
  joinGroupResult : Except Nat Unit
  setTosResult : Except Nat Unit

/-- TransportMulticast.ListenOnTransports (transportMulticast.go lines 59
to 104, first variant), as a function of its socket-call outcomes,
returning the error handed back to the caller and whether the receive
loop goroutine was started.  ListenPacket failure and JoinGroup failure
return a wrapped non-nil error before the goroutine is started; the
SetMulticastLoopback result is discarded and a SetTOS failure is only
logged; then go readDataPacket() runs and nil is returned (no control
loop is started for multicast). -/
def TransportMulticast.ListenOnTransports (env : McastSetupEnv) :
    Option SetupError × Bool :=
  match env.listenPacketResult with
  | Except.error e => (some (SetupError.listenPacketFailed e), false)
  | Except.ok _ =>
    match env.joinGroupResult with
    | Except.error e => (some (SetupError.joinGroupFailed e), false)
    | Except.ok _ => (none, true)

/-- TransportTCP.ListenOnTransports (transportTCP.go lines 38 to 53), as
a function of the ListenTCP outcome.  The whole setup (listen, accept,
spawn of readDataPacket) runs inside a spawned goroutine whose local err
shadows the named return value, and the outer function returns
immediately: the returned error is always nil.  On a listen failure the
goroutine returns early, so no receive loop is started. -/
def TransportTCP.ListenOnTransports (listenResult : Except Nat Unit) :
    Option SetupError × Bool :=
  (none,
    match listenResult with
    | Except.error _ => false
    | Except.ok _ => true)

/-- Which of the two UDP sockets of the multicast backend a send goes
out on. -/
inductive ConnUsed where
  | dataConn
  | ctrlConn
deriving DecidableEq

/-- One UDP send: the socket used, the destination IP and port, and the
bytes handed to WriteToUDP. -/
structure UdpSend where
  conn : ConnUsed
  ip : Nat
  port : Nat
  payload : List Nat
deriving DecidableEq

/-- Go slice expression xs[0:hi] with an int bound: panics unless
0 ≤ hi ≤ len(xs). -/
def goSliceTo (xs : List Nat) (hi : Int) : Except GoPanic (List Nat) :=
  if 0 ≤ hi ∧ hi ≤ (xs.length : Int) then Except.ok (xs.take hi.toNat)
  else Except.error GoPanic.sliceOutOfRange

/-- TransportMulticast.WriteCtrlTo (transportMulticast.go lines 168 to
173, first variant): the ctrlConn send is commented out; the packet bytes
buffer[0:inUse] are written on the shared data socket to the
destination's DataPort. -/
def TransportMulticast.WriteCtrlTo (rp : CtrlPacket) (addr : Address) :
    Except GoPanic UdpSend :=
  match goSliceTo rp.buffer rp.inUse with
  | Except.error e => Except.error e
  | Except.ok pay =>
    Except.ok { conn := ConnUsed.dataConn, ip := addr.IpAddr, port := addr.DataPort
                payload := pay }

/-- A trace that ends the clean way the shutdown protocol promises: some
loop iterations with no close and no signal, then the socket close, then
exactly one termination send. -/
def CleanExit (t : List RecvEvent) (v : TransportEndValue) : Prop :=
  ∃ pre, t = pre ++ [RecvEvent.socketClosed, RecvEvent.signaled v] ∧
    signalCount pre = 0 ∧ closeCount pre = 0

/-- A trace whose loop exited and closed the socket but never completed
any termination send. -/
def ClosedNoSignal (t : List RecvEvent) : Prop :=
  (∃ pre, t = pre ++ [RecvEvent.socketClosed]) ∧ signalCount t = 0

/-- Every successful read an environment offers is bounded by the scratch
buffer size, as every real socket read into the scratch buffer is. -/
def ReadsBounded (reads : Nat → ReadResult) : Prop :=
  ∀ i data sip spt, reads i = ReadResult.ok data sip spt →
    data.length ≤ defaultBufferSize

/-- The exit-shape invariant of a receive-loop run: a terminated run ends
with close-then-single-signal, a blocked run closed the socket but sent
nothing and can only happen on a nil channel, and a run that is still
inside the loop (or died in a panic) has closed and sent nothing. -/
def ExitShape (endCh : Option Nat) (endVal : TransportEndValue)
    (r : List RecvEvent × LoopOutcome) : Prop :=
  (r.2 = LoopOutcome.terminated → CleanExit r.1 endVal ∧ endCh ≠ none) ∧
  (r.2 = LoopOutcome.blockedOnNilChannel → ClosedNoSignal r.1 ∧ endCh = none) ∧
  ((r.2 = LoopOutcome.stillRunning ∨ r.2 = LoopOutcome.panicked) →
    signalCount r.1 = 0 ∧ closeCount r.1 = 0)

theorem signalCount_cons (e : RecvEvent) (t : List RecvEvent) :
    signalCount (e :: t) = signalCount t + (if isSignal e then 1 else 0) := by
  simp [signalCount, List.countP_cons]

theorem closeCount_cons (e : RecvEvent) (t : List RecvEvent) :
    closeCount (e :: t) = closeCount t + (if isClose e then 1 else 0) := by
  simp [closeCount, List.countP_cons]

/-- Prepending a loop-body event (neither a signal nor a close) preserves
the exit-shape invariant. -/
theorem exitShape_cons (endCh : Option Nat) (endVal : TransportEndValue)
    (e : RecvEvent) (hs : isSignal e = false) (hc : isClose e = false)
    (r : List RecvEvent × LoopOutcome) (h : ExitShape endCh endVal r) :
    ExitShape endCh endVal (e :: r.1, r.2) := by
  obtain ⟨h1, h2, h3⟩ := h
  refine ⟨?_, ?_, ?_⟩
  · intro ho
    obtain ⟨⟨pre, hpre, hps, hpc⟩, hch⟩ := h1 ho
    refine ⟨⟨e :: pre, by simp [hpre], ?_, ?_⟩, hch⟩
    · rw [signalCount_cons, hps, hs]; simp
    · rw [closeCount_cons, hpc, hc]; simp
  · intro ho
    obtain ⟨⟨⟨pre, hpre⟩, hsig⟩, hch⟩ := h2 ho
    refine ⟨⟨⟨e :: pre, by simp [hpre]⟩, ?_⟩, hch⟩
    rw [signalCount_cons, hsig, hs]; simp
  · intro ho
    obtain ⟨hsig, hcl⟩ := h3 ho
    constructor
    · rw [signalCount_cons, hsig, hs]; simp
    · rw [closeCount_cons, hcl, hc]; simp

/-- The loop epilogue (preceded by the read of the breaking iteration)
satisfies the exit-shape invariant. -/
theorem exitShape_epilogue (endCh : Option Nat) (endVal : TransportEndValue) :
    ExitShape endCh endVal
      (RecvEvent.readAttempt :: (loopEpilogue endCh endVal).1, (loopEpilogue endCh endVal).2) := by
  cases endCh with
  | some c =>
    refine ⟨?_, ?_, ?_⟩
    · intro _
      refine ⟨⟨[RecvEvent.readAttempt], rfl, ?_, ?_⟩, by simp⟩
      · decide
      · decide
    · intro h; simp [loopEpilogue] at h
    · intro h; simp [loopEpilogue] at h
  | none =>
    refine ⟨?_, ?_, ?_⟩
    · intro h; simp [loopEpilogue] at h
    · intro _
      refine ⟨⟨⟨[RecvEvent.readAttempt], rfl⟩, ?_⟩, rfl⟩
      show signalCount [RecvEvent.readAttempt, RecvEvent.socketClosed] = 0
      decide
    · intro h; simp [loopEpilogue] at h

/-- Every fuel-bounded run of the shared receive loop satisfies the
exit-shape invariant, provided the delivery step only emits delivery
events. -/
theorem runRecvLoop_shape (deliver : List Nat → Nat → Nat → Except GoPanic RecvEvent)
    (endVal : TransportEndValue) (endCh : Option Nat) (sched : LoopSched)
    (hdel : ∀ d sip spt ev, deliver d sip spt = Except.ok ev →
      isSignal ev = false ∧ isClose ev = false) :
    ∀ fuel i, ExitShape endCh endVal (runRecvLoop deliver endVal endCh sched fuel i) := by
  intro fuel
  induction fuel with
  | zero =>
    intro i
    refine ⟨by simp [runRecvLoop], by simp [runRecvLoop], ?_⟩
    intro _
    simp [runRecvLoop, signalCount, closeCount]
  | succ fuel ih =>
    intro i
    cases hstop : sched.stop i with
    | true =>
      have heq : runRecvLoop deliver endVal endCh sched (fuel + 1) i =
          (RecvEvent.readAttempt :: (loopEpilogue endCh endVal).1,
           (loopEpilogue endCh endVal).2) := by
        simp [runRecvLoop, hstop]
      rw [heq]
      exact exitShape_epilogue endCh endVal
    | false =>
      cases hread : sched.read i with
      | timeout =>
        have heq : runRecvLoop deliver endVal endCh sched (fuel + 1) i =
            (RecvEvent.readAttempt :: (runRecvLoop deliver endVal endCh sched fuel (i + 1)).1,
             (runRecvLoop deliver endVal endCh sched fuel (i + 1)).2) := by
          simp [runRecvLoop, hstop, hread]
        rw [heq]
        exact exitShape_cons endCh endVal RecvEvent.readAttempt rfl rfl _ (ih (i + 1))
      | fatal =>
        have heq : runRecvLoop deliver endVal endCh sched (fuel + 1) i =
            (RecvEvent.readAttempt :: (loopEpilogue endCh endVal).1,
             (loopEpilogue endCh endVal).2) := by
          simp [runRecvLoop, hstop, hread]
        rw [heq]
        exact exitShape_epilogue endCh endVal
      | ok data sip spt =>
        cases hdev : deliver data sip spt with
        | error e =>
          have heq : runRecvLoop deliver endVal endCh sched (fuel + 1) i =
              ([RecvEvent.readAttempt], LoopOutcome.panicked) := by
            simp [runRecvLoop, hstop, hread, hdev]
          rw [heq]
          refine ⟨by simp, by simp, ?_⟩
          intro _
          exact ⟨by decide, by decide⟩
        | ok ev =>
          obtain ⟨hs, hc⟩ := hdel data sip spt ev hdev
          have heq : runRecvLoop deliver endVal endCh sched (fuel + 1) i =
              (RecvEvent.readAttempt :: ev ::
                 (runRecvLoop deliver endVal endCh sched fuel (i + 1)).1,
               (runRecvLoop deliver endVal endCh sched fuel (i + 1)).2) := by
            simp [runRecvLoop, hstop, hread, hdev]
          rw [heq]
          exact exitShape_cons endCh endVal RecvEvent.readAttempt rfl rfl _
            (exitShape_cons endCh endVal ev hs hc _ (ih (i + 1)))

/-- A run of the shared receive loop never panics when the delivery step
succeeds on every read the environment offers. -/
theorem runRecvLoop_no_panic (deliver : List Nat → Nat → Nat → Except GoPanic RecvEvent)
    (endVal : TransportEndValue) (endCh : Option Nat) (sched : LoopSched)
    (hdel : ∀ i d sip spt, sched.read i = ReadResult.ok d sip spt →
      ∃ ev, deliver d sip spt = Except.ok ev) :
    ∀ fuel i, (runRecvLoop deliver endVal endCh sched fuel i).2 ≠ LoopOutcome.panicked := by
  intro fuel
  induction fuel with
  | zero => intro i; simp [runRecvLoop]
  | succ fuel ih =>
    intro i
    cases hstop : sched.stop i with
    | true =>
      cases endCh <;> simp [runRecvLoop, hstop, loopEpilogue]
    | false =>
      cases hread : sched.read i with
      | timeout =>
        simpa [runRecvLoop, hstop, hread] using ih (i + 1)
      | fatal =>
        cases endCh <;> simp [runRecvLoop, hstop, hread, loopEpilogue]
      | ok data sip spt =>
        obtain ⟨ev, hev⟩ := hdel i data sip spt hread
        simpa [runRecvLoop, hstop, hread, hev] using ih (i + 1)

/-- The multicast data delivery step only emits delivery events. -/
theorem mcastDataDeliver_events (d : List Nat) (sip spt : Nat) (ev : RecvEvent)
    (h : mcastDataDeliver d sip spt = Except.ok ev) :
    isSignal ev = false ∧ isClose ev = false := by
  unfold mcastDataDeliver mkMcastDataPacket at h
  by_cases hle : d.length ≤ defaultBufferSize
  · simp [hle, Except.map] at h
    subst h
    exact ⟨rfl, rfl⟩
  · simp [hle, Except.map] at h

/-- The multicast control delivery step only emits delivery events. -/
theorem mcastCtrlDeliver_events (d : List Nat) (sip spt : Nat) (ev : RecvEvent)
    (h : mcastCtrlDeliver d sip spt = Except.ok ev) :
    isSignal ev = false ∧ isClose ev = false := by
  unfold mcastCtrlDeliver mkMcastCtrlPacket at h
  by_cases hle : d.length ≤ defaultBufferSize
  · simp [hle, Except.map] at h
    subst h
    exact ⟨rfl, rfl⟩
  · simp [hle, Except.map] at h

/-- The TCP data delivery step only emits delivery events. -/
theorem tcpDeliver_events (rip rpt : Nat) (d : List Nat) (sip spt : Nat) (ev : RecvEvent)
    (h : tcpDeliver rip rpt d sip spt = Except.ok ev) :
    isSignal ev = false ∧ isClose ev = false := by
  unfold tcpDeliver mkTcpDataPacket at h
  by_cases hle : 2 ≤ d.length ∧ d.length ≤ defaultBufferSize
  · simp [hle, Except.map] at h
    subst h
    exact ⟨rfl, rfl⟩
  · simp [hle, Except.map] at h

/-- The multicast data delivery step succeeds on every bounded read. -/
theorem mcastDataDeliver_ok (d : List Nat) (sip spt : Nat)
    (h : d.length ≤ defaultBufferSize) :
    ∃ ev, mcastDataDeliver d sip spt = Except.ok ev := by
  unfold mcastDataDeliver mkMcastDataPacket
  rw [if_pos h]
  exact ⟨_, rfl⟩

/-- The multicast control delivery step succeeds on every bounded read. -/
theorem mcastCtrlDeliver_ok (d : List Nat) (sip spt : Nat)
    (h : d.length ≤ defaultBufferSize) :
    ∃ ev, mcastCtrlDeliver d sip spt = Except.ok ev := by
  unfold mcastCtrlDeliver mkMcastCtrlPacket
  rw [if_pos h]
  exact ⟨_, rfl⟩

/-- Claim C2: for every successful read in the TCP data receive loop that
returns n bytes consisting of a 2-byte length-prefix header followed by
the payload, the packet delivered to the upper layer has inUse equal to
the payload length n-2 and its buffer content (its first inUse bytes)
equals exactly bytes 2 through n-1 of the read, with the 2-byte header
stripped. -/
theorem claim_C2_tcp_framing (remoteIp remotePort : Nat) (endCh : Option Nat)
    (sched : LoopSched) (fuel i : Nat) (data : List Nat) (sip spt : Nat)
    (hstop : sched.stop i = false)
    (hread : sched.read i = ReadResult.ok data sip spt)
    (h2 : 2 ≤ data.length) (hD : data.length ≤ defaultBufferSize) :
    ∃ p, (TransportTCP.readDataLoop remoteIp remotePort endCh sched (fuel + 1) i).1 =
        RecvEvent.readAttempt :: RecvEvent.deliveredData p ::
          (TransportTCP.readDataLoop remoteIp remotePort endCh sched fuel (i + 1)).1 ∧
      p.inUse = (data.length : Int) - 2 ∧
      p.buffer.take (data.length - 2) = data.drop 2 := by
  refine ⟨{ buffer := goCopy newDataPacket.buffer (data.drop 2)
            inUse := (data.length : Int) - 2
            fromAddr := { IpAddr := remoteIp, DataPort := remotePort, CtrlPort := 0 } },
    ?_, rfl, ?_⟩
  · unfold TransportTCP.readDataLoop
    simp [runRecvLoop, hstop, hread, tcpDeliver, mkTcpDataPacket, h2, hD, Except.map]
  · have hlen : (data.drop 2).length = data.length - 2 := by simp
    rw [← hlen]
    refine goCopy_take _ _ ?_
    have : newDataPacket.buffer.length = defaultBufferSize := by simp [newDataPacket]
    rw [hlen, this]
    omega

/-- Witness for C2: a 3-byte TCP read delivers a 1-byte payload packet. -/
theorem claim_C2_witness :
    ∃ p, (TransportTCP.readDataLoop 3 4 (some 0)
          { stop := fun _ => false, read := fun _ => ReadResult.ok [0, 1, 77] 8 9 } 1 0).1 =
        RecvEvent.readAttempt :: RecvEvent.deliveredData p ::
          (TransportTCP.readDataLoop 3 4 (some 0)
            { stop := fun _ => false, read := fun _ => ReadResult.ok [0, 1, 77] 8 9 } 0 1).1 ∧
      p.inUse = (([0, 1, 77] : List Nat).length : Int) - 2 ∧
      p.buffer.take (([0, 1, 77] : List Nat).length - 2) = ([0, 1, 77] : List Nat).drop 2 :=
  claim_C2_tcp_framing 3 4 (some 0) _ 0 0 [0, 1, 77] 8 9 rfl rfl (by decide) (by decide)

/-- Claim C3: every packet a receive path (TCP data, multicast data,
multicast control) constructs from a successful read satisfies
0 ≤ inUse ≤ capacity of its buffer.  The TCP construction only completes
for reads of at least 2 bytes: a shorter successful TCP read panics on
the slice buf[2:n] before a packet is produced, so no delivered packet
violates the bound. -/
theorem claim_C3_inUse_within_capacity (data : List Nat) (sip spt rip rpt : Nat)
    (p q : DataPacket) (c : CtrlPacket) :
    (mkMcastDataPacket data sip spt = Except.ok p →
      0 ≤ p.inUse ∧ p.inUse ≤ (p.buffer.length : Int)) ∧
    (mkMcastCtrlPacket data sip spt = Except.ok c →
      0 ≤ c.inUse ∧ c.inUse ≤ (c.buffer.length : Int)) ∧
    (mkTcpDataPacket rip rpt data = Except.ok q →
      0 ≤ q.inUse ∧ q.inUse ≤ (q.buffer.length : Int)) := by
  refine ⟨?_, ?_, ?_⟩
  · intro h
    unfold mkMcastDataPacket at h
    by_cases hle : data.length ≤ defaultBufferSize
    · rw [if_pos hle] at h
      injection h with h
      subst h
      constructor
      · exact Int.ofNat_nonneg _
      · simp only [goCopy_length]
        have : newDataPacket.buffer.length = defaultBufferSize := by simp [newDataPacket]
        rw [this]
        exact_mod_cast hle
    · rw [if_neg hle] at h
      cases h
  · intro h
    unfold mkMcastCtrlPacket at h
    by_cases hle : data.length ≤ defaultBufferSize
    · rw [if_pos hle] at h
      injection h with h
      subst h
      constructor
      · exact Int.ofNat_nonneg _
      · simp only [goCopy_length]
        have : newCtrlPacket.buffer.length = defaultBufferSize := by simp [newCtrlPacket]
        rw [this]
        exact_mod_cast hle
    · rw [if_neg hle] at h
      cases h
  · intro h
    unfold mkTcpDataPacket at h
    by_cases hle : 2 ≤ data.length ∧ data.length ≤ defaultBufferSize
    · rw [if_pos hle] at h
      injection h with h
      subst h
      constructor
      · simp only []
        omega
      · simp only [goCopy_length]
        have : newDataPacket.buffer.length = defaultBufferSize := by simp [newDataPacket]
        rw [this]
        omega
    · rw [if_neg hle] at h
      cases h

/-- Witness for C3 at a concrete 3-byte read on each path. -/
theorem claim_C3_witness :
    (0 ≤ ({ buffer := goCopy newDataPacket.buffer [1, 2, 3], inUse := 3
            fromAddr := { IpAddr := 7, DataPort := 9, CtrlPort := 0 } } : DataPacket).inUse ∧
      ({ buffer := goCopy newDataPacket.buffer [1, 2, 3], inUse := 3
         fromAddr := { IpAddr := 7, DataPort := 9, CtrlPort := 0 } } : DataPacket).inUse ≤
        ((({ buffer := goCopy newDataPacket.buffer [1, 2, 3], inUse := 3
             fromAddr := { IpAddr := 7, DataPort := 9, CtrlPort := 0 } } : DataPacket).buffer.length : Int))) ∧
    (0 ≤ ({ buffer := goCopy newCtrlPacket.buffer [1, 2, 3], inUse := 3
            fromAddr := { IpAddr := 7, DataPort := 0, CtrlPort := 9 } } : CtrlPacket).inUse ∧
      ({ buffer := goCopy newCtrlPacket.buffer [1, 2, 3], inUse := 3
         fromAddr := { IpAddr := 7, DataPort := 0, CtrlPort := 9 } } : CtrlPacket).inUse ≤
        ((({ buffer := goCopy newCtrlPacket.buffer [1, 2, 3], inUse := 3
             fromAddr := { IpAddr := 7, DataPort := 0, CtrlPort := 9 } } : CtrlPacket).buffer.length : Int))) ∧
    (0 ≤ ({ buffer := goCopy newDataPacket.buffer [3], inUse := 1
            fromAddr := { IpAddr := 5, DataPort := 6, CtrlPort := 0 } } : DataPacket).inUse ∧
      ({ buffer := goCopy newDataPacket.buffer [3], inUse := 1
         fromAddr := { IpAddr := 5, DataPort := 6, CtrlPort := 0 } } : DataPacket).inUse ≤
        ((({ buffer := goCopy newDataPacket.buffer [3], inUse := 1
             fromAddr := { IpAddr := 5, DataPort := 6, CtrlPort := 0 } } : DataPacket).buffer.length : Int))) := by
  obtain ⟨h1, h2, h3⟩ := claim_C3_inUse_within_capacity [1, 2, 3] 7 9 5 6
    { buffer := goCopy newDataPacket.buffer [1, 2, 3], inUse := 3
      fromAddr := { IpAddr := 7, DataPort := 9, CtrlPort := 0 } }
    { buffer := goCopy newDataPacket.buffer [3], inUse := 1
      fromAddr := { IpAddr := 5, DataPort := 6, CtrlPort := 0 } }
    { buffer := goCopy newCtrlPacket.buffer [1, 2, 3], inUse := 3
      fromAddr := { IpAddr := 7, DataPort := 0, CtrlPort := 9 } }
  exact ⟨h1 rfl, h2 rfl, h3 rfl⟩

/-- Claim C7: the multicast backend's WriteCtrlTo transmits
buffer[0:inUse] on the shared data socket addressed to the destination's
DataPort; the control socket and the destination CtrlPort are not used. -/
theorem claim_C7_rtcp_on_data_port (rp : CtrlPacket) (addr : Address)
    (h0 : 0 ≤ rp.inUse) (hlen : rp.inUse ≤ (rp.buffer.length : Int)) :
    TransportMulticast.WriteCtrlTo rp addr =
      Except.ok { conn := ConnUsed.dataConn, ip := addr.IpAddr, port := addr.DataPort
                  payload := rp.buffer.take rp.inUse.toNat } := by
  unfold TransportMulticast.WriteCtrlTo goSliceTo
  rw [if_pos ⟨h0, hlen⟩]

/-- Witness for C7 at a concrete control packet and address. -/
theorem claim_C7_witness :
    TransportMulticast.WriteCtrlTo
        { buffer := [1, 2, 3], inUse := 2, fromAddr := { IpAddr := 0, DataPort := 0, CtrlPort := 0 } }
        { IpAddr := 10, DataPort := 20, CtrlPort := 21 } =
      Except.ok { conn := ConnUsed.dataConn, ip := 10, port := 20
                  payload := ([1, 2, 3] : List Nat).take ((2 : Int)).toNat } :=
  claim_C7_rtcp_on_data_port
    { buffer := [1, 2, 3], inUse := 2, fromAddr := { IpAddr := 0, DataPort := 0, CtrlPort := 0 } }
    { IpAddr := 10, DataPort := 20, CtrlPort := 21 } (by decide) (by decide)

/-- Claim C8: every packet a receive path constructs carries a fromAddr
populated from the sender's socket address (for TCP, from the stored
remote address of the accepted connection), with the port of the
packet's own kind holding the sender port and the other port zero; when
the sender port is non-zero the address therefore has exactly one
non-zero port, matching the packet kind. -/
theorem claim_C8_fromAddr_ports (data : List Nat) (sip spt rip rpt : Nat)
    (p q : DataPacket) (c : CtrlPacket) :
    (mkMcastDataPacket data sip spt = Except.ok p →
      p.fromAddr.IpAddr = sip ∧ p.fromAddr.DataPort = spt ∧ p.fromAddr.CtrlPort = 0 ∧
        (spt ≠ 0 → p.fromAddr.DataPort ≠ 0 ∧ p.fromAddr.CtrlPort = 0)) ∧
    (mkMcastCtrlPacket data sip spt = Except.ok c →
      c.fromAddr.IpAddr = sip ∧ c.fromAddr.CtrlPort = spt ∧ c.fromAddr.DataPort = 0 ∧
        (spt ≠ 0 → c.fromAddr.CtrlPort ≠ 0 ∧ c.fromAddr.DataPort = 0)) ∧
    (mkTcpDataPacket rip rpt data = Except.ok q →
      q.fromAddr.IpAddr = rip ∧ q.fromAddr.DataPort = rpt ∧ q.fromAddr.CtrlPort = 0 ∧
        (rpt ≠ 0 → q.fromAddr.DataPort ≠ 0 ∧ q.fromAddr.CtrlPort = 0)) := by
  refine ⟨?_, ?_, ?_⟩
  · intro h
    unfold mkMcastDataPacket at h
    by_cases hle : data.length ≤ defaultBufferSize
    · rw [if_pos hle] at h
      injection h with h
      subst h
      exact ⟨rfl, rfl, rfl, fun hy => ⟨hy, rfl⟩⟩
    · rw [if_neg hle] at h
      cases h
  · intro h
    unfold mkMcastCtrlPacket at h
    by_cases hle : data.length ≤ defaultBufferSize
    · rw [if_pos hle] at h
      injection h with h
      subst h
      exact ⟨rfl, rfl, rfl, fun hy => ⟨hy, rfl⟩⟩
    · rw [if_neg hle] at h
      cases h
  · intro h
    unfold mkTcpDataPacket at h
    by_cases hle : 2 ≤ data.length ∧ data.length ≤ defaultBufferSize
    · rw [if_pos hle] at h
      injection h with h
      subst h
      exact ⟨rfl, rfl, rfl, fun hy => ⟨hy, rfl⟩⟩
    · rw [if_neg hle] at h
      cases h

/-- Witness for C8 at concrete reads with sender port 9 (and TCP remote
port 6). -/
theorem claim_C8_witness :
    (({ buffer := goCopy newDataPacket.buffer [1, 2], inUse := 2
        fromAddr := { IpAddr := 7, DataPort := 9, CtrlPort := 0 } } : DataPacket).fromAddr.IpAddr = 7 ∧
      ({ buffer := goCopy newDataPacket.buffer [1, 2], inUse := 2
         fromAddr := { IpAddr := 7, DataPort := 9, CtrlPort := 0 } } : DataPacket).fromAddr.DataPort = 9 ∧
      ({ buffer := goCopy newDataPacket.buffer [1, 2], inUse := 2
         fromAddr := { IpAddr := 7, DataPort := 9, CtrlPort := 0 } } : DataPacket).fromAddr.CtrlPort = 0 ∧
      ((9 : Nat) ≠ 0 →
        ({ buffer := goCopy newDataPacket.buffer [1, 2], inUse := 2
           fromAddr := { IpAddr := 7, DataPort := 9, CtrlPort := 0 } } : DataPacket).fromAddr.DataPort ≠ 0 ∧
        ({ buffer := goCopy newDataPacket.buffer [1, 2], inUse := 2
           fromAddr := { IpAddr := 7, DataPort := 9, CtrlPort := 0 } } : DataPacket).fromAddr.CtrlPort = 0)) ∧
    (({ buffer := goCopy newCtrlPacket.buffer [1, 2], inUse := 2
        fromAddr := { IpAddr := 7, DataPort := 0, CtrlPort := 9 } } : CtrlPacket).fromAddr.IpAddr = 7 ∧
      ({ buffer := goCopy newCtrlPacket.buffer [1, 2], inUse := 2
         fromAddr := { IpAddr := 7, DataPort := 0, CtrlPort := 9 } } : CtrlPacket).fromAddr.CtrlPort = 9 ∧
      ({ buffer := goCopy newCtrlPacket.buffer [1, 2], inUse := 2
         fromAddr := { IpAddr := 7, DataPort := 0, CtrlPort := 9 } } : CtrlPacket).fromAddr.DataPort = 0 ∧
      ((9 : Nat) ≠ 0 →
        ({ buffer := goCopy newCtrlPacket.buffer [1, 2], inUse := 2
           fromAddr := { IpAddr := 7, DataPort := 0, CtrlPort := 9 } } : CtrlPacket).fromAddr.CtrlPort ≠ 0 ∧
        ({ buffer := goCopy newCtrlPacket.buffer [1, 2], inUse := 2
           fromAddr := { IpAddr := 7, DataPort := 0, CtrlPort := 9 } } : CtrlPacket).fromAddr.DataPort = 0)) ∧
    (({ buffer := goCopy newDataPacket.buffer (([1, 2] : List Nat).drop 2), inUse := 0
        fromAddr := { IpAddr := 5, DataPort := 6, CtrlPort := 0 } } : DataPacket).fromAddr.IpAddr = 5 ∧
      ({ buffer := goCopy newDataPacket.buffer (([1, 2] : List Nat).drop 2), inUse := 0
         fromAddr := { IpAddr := 5, DataPort := 6, CtrlPort := 0 } } : DataPacket).fromAddr.DataPort = 6 ∧
      ({ buffer := goCopy newDataPacket.buffer (([1, 2] : List Nat).drop 2), inUse := 0
         fromAddr := { IpAddr := 5, DataPort := 6, CtrlPort := 0 } } : DataPacket).fromAddr.CtrlPort = 0 ∧
      ((6 : Nat) ≠ 0 →
        ({ buffer := goCopy newDataPacket.buffer (([1, 2] : List Nat).drop 2), inUse := 0
           fromAddr := { IpAddr := 5, DataPort := 6, CtrlPort := 0 } } : DataPacket).fromAddr.DataPort ≠ 0 ∧
        ({ buffer := goCopy newDataPacket.buffer (([1, 2] : List Nat).drop 2), inUse := 0
           fromAddr := { IpAddr := 5, DataPort := 6, CtrlPort := 0 } } : DataPacket).fromAddr.CtrlPort = 0)) := by
  obtain ⟨h1, h2, h3⟩ := claim_C8_fromAddr_ports [1, 2] 7 9 5 6
    { buffer := goCopy newDataPacket.buffer [1, 2], inUse := 2
      fromAddr := { IpAddr := 7, DataPort := 9, CtrlPort := 0 } }
    { buffer := goCopy newDataPacket.buffer (([1, 2] : List Nat).drop 2), inUse := 0
      fromAddr := { IpAddr := 5, DataPort := 6, CtrlPort := 0 } }
    { buffer := goCopy newCtrlPacket.buffer [1, 2], inUse := 2
      fromAddr := { IpAddr := 7, DataPort := 0, CtrlPort := 9 } }
  exact ⟨h1 rfl, h2 rfl, h3 rfl⟩

/-- Claim C4 fails as stated: the TCP backend's ListenOnTransports runs
its whole setup inside a spawned goroutine and returns immediately, so a
listen failure is never returned to the caller; at the concrete failing
listen outcome below the returned error is nil, where the claim demands
a non-nil error. -/
theorem claim_C4_counterexample :
    (TransportTCP.ListenOnTransports (Except.error 3)).1 = none := rfl

/-- Claim C4 amended: for the multicast backend a setup failure (packet
bind or group join) is returned synchronously as a non-nil wrapped error
and no receive loop is started; for the TCP backend ListenOnTransports
always returns nil because setup runs asynchronously, and on a listen
failure no receive loop is started but no error reaches the caller. -/
theorem claim_C4_amended (env : McastSetupEnv) (res : Except Nat Unit) (e : Nat) :
    (env.listenPacketResult = Except.error e →
      TransportMulticast.ListenOnTransports env =
        (some (SetupError.listenPacketFailed e), false)) ∧
    (env.listenPacketResult = Except.ok () → env.joinGroupResult = Except.error e →
      TransportMulticast.ListenOnTransports env =
        (some (SetupError.joinGroupFailed e), false)) ∧
    (TransportTCP.ListenOnTransports res).1 = none ∧
    (res = Except.error e → (TransportTCP.ListenOnTransports res).2 = false) := by
  refine ⟨?_, ?_, rfl, ?_⟩
  · intro h
    simp [TransportMulticast.ListenOnTransports, h]
  · intro h1 h2
    simp [TransportMulticast.ListenOnTransports, h1, h2]
  · intro h
    simp [TransportTCP.ListenOnTransports, h]

/-- Witness for C4 amended at concrete failing setups. -/
theorem claim_C4_witness :
    TransportMulticast.ListenOnTransports
        { listenPacketResult := Except.error 7, joinGroupResult := Except.ok ()
          setTosResult := Except.ok () } =
      (some (SetupError.listenPacketFailed 7), false) ∧
    TransportMulticast.ListenOnTransports
        { listenPacketResult := Except.ok (), joinGroupResult := Except.error 8
          setTosResult := Except.ok () } =
      (some (SetupError.joinGroupFailed 8), false) ∧
    (TransportTCP.ListenOnTransports (Except.error 9)).1 = none ∧
    (TransportTCP.ListenOnTransports (Except.error 9)).2 = false := by
  refine ⟨(claim_C4_amended
      { listenPacketResult := Except.error 7, joinGroupResult := Except.ok ()
        setTosResult := Except.ok () } (Except.error 9) 7).1 rfl,
    (claim_C4_amended
      { listenPacketResult := Except.ok (), joinGroupResult := Except.error 8
        setTosResult := Except.ok () } (Except.error 9) 8).2.1 rfl rfl,
    (claim_C4_amended
      { listenPacketResult := Except.error 7, joinGroupResult := Except.ok ()
        setTosResult := Except.ok () } (Except.error 9) 9).2.2.1,
    (claim_C4_amended
      { listenPacketResult := Except.error 7, joinGroupResult := Except.ok ()
        setTosResult := Except.ok () } (Except.error 9) 9).2.2.2 rfl⟩

/-- Claim C5: in every receive loop (TCP data, multicast data, multicast
control), a read failing with a timeout while the stop flag is unset
makes the loop continue with the next iteration, delivering nothing and
not exiting; a read failing with any non-timeout error makes the loop
exit immediately (regardless of the stop flag), performing no further
iteration. -/
theorem claim_C5_timeout_vs_fatal (remoteIp remotePort : Nat) (endCh : Option Nat)
    (sched : LoopSched) (fuel i : Nat) :
    (sched.stop i = false → sched.read i = ReadResult.timeout →
      TransportTCP.readDataLoop remoteIp remotePort endCh sched (fuel + 1) i =
        (RecvEvent.readAttempt ::
           (TransportTCP.readDataLoop remoteIp remotePort endCh sched fuel (i + 1)).1,
         (TransportTCP.readDataLoop remoteIp remotePort endCh sched fuel (i + 1)).2) ∧
      TransportMulticast.readDataLoop endCh sched (fuel + 1) i =
        (RecvEvent.readAttempt :: (TransportMulticast.readDataLoop endCh sched fuel (i + 1)).1,
         (TransportMulticast.readDataLoop endCh sched fuel (i + 1)).2) ∧
      TransportMulticast.readCtrlLoop endCh sched (fuel + 1) i =
        (RecvEvent.readAttempt :: (TransportMulticast.readCtrlLoop endCh sched fuel (i + 1)).1,
         (TransportMulticast.readCtrlLoop endCh sched fuel (i + 1)).2)) ∧
    (sched.read i = ReadResult.fatal →
      TransportTCP.readDataLoop remoteIp remotePort endCh sched (fuel + 1) i =
        (RecvEvent.readAttempt ::
           (loopEpilogue endCh TransportEndValue.DataTransportRecvStopped).1,
         (loopEpilogue endCh TransportEndValue.DataTransportRecvStopped).2) ∧
      TransportMulticast.readDataLoop endCh sched (fuel + 1) i =
        (RecvEvent.readAttempt ::
           (loopEpilogue endCh TransportEndValue.DataTransportRecvStopped).1,
         (loopEpilogue endCh TransportEndValue.DataTransportRecvStopped).2) ∧
      TransportMulticast.readCtrlLoop endCh sched (fuel + 1) i =
        (RecvEvent.readAttempt ::
           (loopEpilogue endCh TransportEndValue.CtrlTransportRecvStopped).1,
         (loopEpilogue endCh TransportEndValue.CtrlTransportRecvStopped).2)) := by
  constructor
  · intro hs hr
    refine ⟨?_, ?_, ?_⟩
    · simp [TransportTCP.readDataLoop, runRecvLoop, hs, hr]
    · simp [TransportMulticast.readDataLoop, runRecvLoop, hs, hr]
    · simp [TransportMulticast.readCtrlLoop, runRecvLoop, hs, hr]
  · intro hr
    cases hs : sched.stop i with
    | true =>
      refine ⟨?_, ?_, ?_⟩
      · simp [TransportTCP.readDataLoop, runRecvLoop, hs]
      · simp [TransportMulticast.readDataLoop, runRecvLoop, hs]
      · simp [TransportMulticast.readCtrlLoop, runRecvLoop, hs]
    | false =>
      refine ⟨?_, ?_, ?_⟩
      · simp [TransportTCP.readDataLoop, runRecvLoop, hs, hr]
      · simp [TransportMulticast.readDataLoop, runRecvLoop, hs, hr]
      · simp [TransportMulticast.readCtrlLoop, runRecvLoop, hs, hr]

/-- Witness for C5: a timeout read retried in the TCP loop, a fatal read
exiting the multicast data loop. -/
theorem claim_C5_witness :
    TransportTCP.readDataLoop 1 2 (some 0)
        { stop := fun _ => false, read := fun _ => ReadResult.timeout } 1 0 =
      (RecvEvent.readAttempt ::
         (TransportTCP.readDataLoop 1 2 (some 0)
           { stop := fun _ => false, read := fun _ => ReadResult.timeout } 0 1).1,
       (TransportTCP.readDataLoop 1 2 (some 0)
         { stop := fun _ => false, read := fun _ => ReadResult.timeout } 0 1).2) ∧
    TransportMulticast.readDataLoop (some 0)
        { stop := fun _ => false, read := fun _ => ReadResult.fatal } 1 0 =
      (RecvEvent.readAttempt ::
         (loopEpilogue (some 0) TransportEndValue.DataTransportRecvStopped).1,
       (loopEpilogue (some 0) TransportEndValue.DataTransportRecvStopped).2) :=
  ⟨((claim_C5_timeout_vs_fatal 1 2 (some 0)
      { stop := fun _ => false, read := fun _ => ReadResult.timeout } 0 0).1 rfl rfl).1,
    ((claim_C5_timeout_vs_fatal 1 2 (some 0)
      { stop := fun _ => false, read := fun _ => ReadResult.fatal } 0 0).2 rfl).2.1⟩

/-- Claim C6 fails as stated: the stop-flag check sits after the read
call in each loop iteration, not at the top, so a CloseRecv that
completes before a read does not prevent that read.  Below the flag is
visible from before the very first read (set at index 0), yet the loop
still performs one read attempt before observing the flag and breaking
— the claim promised it would break without attempting another read. -/
theorem claim_C6_counterexample :
    (TransportTCP.readDataPacket
        { dataRecvStop := false, ctrlRecvStop := false, transportEnd := some 0 }
        3 4 (some 0) (fun _ => ReadResult.timeout) 2).1 =
      [RecvEvent.readAttempt, RecvEvent.socketClosed,
       RecvEvent.signaled TransportEndValue.DataTransportRecvStopped] := rfl

/-- Claim C6 amended: once the stop flag is set, every receive loop
observes it at its first flag check thereafter — which follows the read
call of that iteration — and breaks out immediately: the iteration's
pending read is still performed, nothing is delivered, and no further
read is attempted after the flag is observed. -/
theorem claim_C6_amended (remoteIp remotePort : Nat) (endCh : Option Nat)
    (sched : LoopSched) (fuel i : Nat) (hstop : sched.stop i = true) :
    TransportTCP.readDataLoop remoteIp remotePort endCh sched (fuel + 1) i =
      (RecvEvent.readAttempt ::
         (loopEpilogue endCh TransportEndValue.DataTransportRecvStopped).1,
       (loopEpilogue endCh TransportEndValue.DataTransportRecvStopped).2) ∧
    TransportMulticast.readDataLoop endCh sched (fuel + 1) i =
      (RecvEvent.readAttempt ::
         (loopEpilogue endCh TransportEndValue.DataTransportRecvStopped).1,
       (loopEpilogue endCh TransportEndValue.DataTransportRecvStopped).2) ∧
    TransportMulticast.readCtrlLoop endCh sched (fuel + 1) i =
      (RecvEvent.readAttempt ::
         (loopEpilogue endCh TransportEndValue.CtrlTransportRecvStopped).1,
       (loopEpilogue endCh TransportEndValue.CtrlTransportRecvStopped).2) := by
  refine ⟨?_, ?_, ?_⟩
  · simp [TransportTCP.readDataLoop, runRecvLoop, hstop]
  · simp [TransportMulticast.readDataLoop, runRecvLoop, hstop]
  · simp [TransportMulticast.readCtrlLoop, runRecvLoop, hstop]

/-- Witness for C6 amended with the flag set at every iteration. -/
theorem claim_C6_witness :
    TransportTCP.readDataLoop 3 4 (some 5)
        { stop := fun _ => true, read := fun _ => ReadResult.timeout } 1 0 =
      (RecvEvent.readAttempt ::
         (loopEpilogue (some 5) TransportEndValue.DataTransportRecvStopped).1,
       (loopEpilogue (some 5) TransportEndValue.DataTransportRecvStopped).2) ∧
    TransportMulticast.readDataLoop (some 5)
        { stop := fun _ => true, read := fun _ => ReadResult.timeout } 1 0 =
      (RecvEvent.readAttempt ::
         (loopEpilogue (some 5) TransportEndValue.DataTransportRecvStopped).1,
       (loopEpilogue (some 5) TransportEndValue.DataTransportRecvStopped).2) ∧
    TransportMulticast.readCtrlLoop (some 5)
        { stop := fun _ => true, read := fun _ => ReadResult.timeout } 1 0 =
      (RecvEvent.readAttempt ::
         (loopEpilogue (some 5) TransportEndValue.CtrlTransportRecvStopped).1,
       (loopEpilogue (some 5) TransportEndValue.CtrlTransportRecvStopped).2) :=
  claim_C6_amended 3 4 (some 5)
    { stop := fun _ => true, read := fun _ => ReadResult.timeout } 0 0 rfl

/-- Claim C9: every receive loop resets its own stop flag to false on
entry, before its first read, so a CloseRecv that completed before the
loop reached that reset (it did set both flags) is overwritten and the
loop runs exactly as if no stop had been requested. -/
theorem claim_C9_entry_reset (tp : TransportCommon) (remoteIp remotePort : Nat)
    (ownerSetAt : Option Nat) (reads : Nat → ReadResult) (fuel : Nat) :
    (TransportCommon.CloseRecv tp).dataRecvStop = true ∧
    (TransportCommon.CloseRecv tp).ctrlRecvStop = true ∧
    TransportTCP.readDataPacket (TransportCommon.CloseRecv tp) remoteIp remotePort
        ownerSetAt reads fuel =
      TransportTCP.readDataPacket tp remoteIp remotePort ownerSetAt reads fuel ∧
    TransportMulticast.readDataPacket (TransportCommon.CloseRecv tp) ownerSetAt reads fuel =
      TransportMulticast.readDataPacket tp ownerSetAt reads fuel ∧
    TransportMulticast.readCtrlPacket (TransportCommon.CloseRecv tp) ownerSetAt reads fuel =
      TransportMulticast.readCtrlPacket tp ownerSetAt reads fuel :=
  ⟨rfl, rfl, rfl, rfl, rfl⟩

/-- A clean exit carries exactly one termination send. -/
theorem CleanExit.signalCount_eq {t : List RecvEvent} {v : TransportEndValue}
    (h : CleanExit t v) : signalCount t = 1 := by
  obtain ⟨pre, rfl, hs, _⟩ := h
  unfold signalCount at hs ⊢
  rw [List.countP_append, hs]
  simp [List.countP_cons, isSignal]

/-- With an installed end channel and bounded reads, every run of the
shared loop that is no longer inside the loop has terminated cleanly:
socket closed, then exactly one termination send. -/
theorem runRecvLoop_clean_exit (deliver : List Nat → Nat → Nat → Except GoPanic RecvEvent)
    (endVal : TransportEndValue) (ch : Nat) (sched : LoopSched)
    (hdel : ∀ d sip spt ev, deliver d sip spt = Except.ok ev →
      isSignal ev = false ∧ isClose ev = false)
    (hok : ∀ i d sip spt, sched.read i = ReadResult.ok d sip spt →
      ∃ ev, deliver d sip spt = Except.ok ev)
    (fuel i : Nat)
    (hexit : (runRecvLoop deliver endVal (some ch) sched fuel i).2 ≠ LoopOutcome.stillRunning) :
    (runRecvLoop deliver endVal (some ch) sched fuel i).2 = LoopOutcome.terminated ∧
    signalCount (runRecvLoop deliver endVal (some ch) sched fuel i).1 = 1 ∧
    CleanExit (runRecvLoop deliver endVal (some ch) sched fuel i).1 endVal := by
  obtain ⟨h1, h2, h3⟩ := runRecvLoop_shape deliver endVal (some ch) sched hdel fuel i
  have hnp := runRecvLoop_no_panic deliver endVal (some ch) sched hok fuel i
  cases ho : (runRecvLoop deliver endVal (some ch) sched fuel i).2 with
  | stillRunning => exact absurd ho hexit
  | terminated =>
    obtain ⟨hce, _⟩ := h1 ho
    exact ⟨rfl, hce.signalCount_eq, hce⟩
  | blockedOnNilChannel =>
    obtain ⟨_, hch⟩ := h2 ho
    simp at hch
  | panicked => exact absurd ho hnp

/-- With an installed end channel, every run of the shared loop that is
no longer inside the loop either terminated cleanly or died in a panic
without closing or signaling. -/
theorem runRecvLoop_clean_exit_or_panic
    (deliver : List Nat → Nat → Nat → Except GoPanic RecvEvent)
    (endVal : TransportEndValue) (ch : Nat) (sched : LoopSched)
    (hdel : ∀ d sip spt ev, deliver d sip spt = Except.ok ev →
      isSignal ev = false ∧ isClose ev = false)
    (fuel i : Nat)
    (hexit : (runRecvLoop deliver endVal (some ch) sched fuel i).2 ≠ LoopOutcome.stillRunning) :
    ((runRecvLoop deliver endVal (some ch) sched fuel i).2 = LoopOutcome.terminated ∧
      signalCount (runRecvLoop deliver endVal (some ch) sched fuel i).1 = 1 ∧
      CleanExit (runRecvLoop deliver endVal (some ch) sched fuel i).1 endVal) ∨
    ((runRecvLoop deliver endVal (some ch) sched fuel i).2 = LoopOutcome.panicked ∧
      signalCount (runRecvLoop deliver endVal (some ch) sched fuel i).1 = 0 ∧
      closeCount (runRecvLoop deliver endVal (some ch) sched fuel i).1 = 0) := by
  obtain ⟨h1, h2, h3⟩ := runRecvLoop_shape deliver endVal (some ch) sched hdel fuel i
  cases ho : (runRecvLoop deliver endVal (some ch) sched fuel i).2 with
  | stillRunning => exact absurd ho hexit
  | terminated =>
    obtain ⟨hce, _⟩ := h1 ho
    exact Or.inl ⟨rfl, hce.signalCount_eq, hce⟩
  | blockedOnNilChannel =>
    obtain ⟨_, hch⟩ := h2 ho
    simp at hch
  | panicked =>
    obtain ⟨hs, hc⟩ := h3 (Or.inr ho)
    exact Or.inr ⟨rfl, hs, hc⟩

/-- Claim C1 fails as stated: the TCP data loop has one exit path — a
successful read of fewer than 2 bytes, which panics on the slice
buf[2:n] — that leaves the loop without closing the socket and without
sending any termination value.  Below, a successful 1-byte read aborts
the loop in a panic with zero sends and zero closes, although the end
channel is installed. -/
theorem claim_C1_counterexample :
    TransportTCP.readDataPacket
        { dataRecvStop := false, ctrlRecvStop := false, transportEnd := some 0 }
        3 4 none (fun _ => ReadResult.ok [7] 8 9) 1 =
      ([RecvEvent.readAttempt], LoopOutcome.panicked) ∧
    signalCount [RecvEvent.readAttempt] = 0 ∧
    closeCount [RecvEvent.readAttempt] = 0 :=
  ⟨rfl, by decide, by decide⟩

/-- Claim C1 amended: with an installed end channel and reads bounded by
the scratch-buffer size, every exit of the multicast data and control
loops closes the loop's own socket and then sends exactly one
termination value of the loop's kind, and so does every exit of the TCP
data loop caused by the stop flag or by a fatal read error; the single
exception is the TCP loop's panic exit on a successful read of fewer
than 2 bytes, which exits without closing the socket and without any
send. -/
theorem claim_C1_amended (tp : TransportCommon) (ch : Nat) (ownerSetAt : Option Nat)
    (reads : Nat → ReadResult) (fuel : Nat) (remoteIp remotePort : Nat)
    (hch : tp.transportEnd = some ch) (hb : ReadsBounded reads) :
    ((TransportMulticast.readDataPacket tp ownerSetAt reads fuel).2 ≠
        LoopOutcome.stillRunning →
      (TransportMulticast.readDataPacket tp ownerSetAt reads fuel).2 =
          LoopOutcome.terminated ∧
        signalCount (TransportMulticast.readDataPacket tp ownerSetAt reads fuel).1 = 1 ∧
        CleanExit (TransportMulticast.readDataPacket tp ownerSetAt reads fuel).1
          TransportEndValue.DataTransportRecvStopped) ∧
    ((TransportMulticast.readCtrlPacket tp ownerSetAt reads fuel).2 ≠
        LoopOutcome.stillRunning →
      (TransportMulticast.readCtrlPacket tp ownerSetAt reads fuel).2 =
          LoopOutcome.terminated ∧
        signalCount (TransportMulticast.readCtrlPacket tp ownerSetAt reads fuel).1 = 1 ∧
        CleanExit (TransportMulticast.readCtrlPacket tp ownerSetAt reads fuel).1
          TransportEndValue.CtrlTransportRecvStopped) ∧
    ((TransportTCP.readDataPacket tp remoteIp remotePort ownerSetAt reads fuel).2 ≠
        LoopOutcome.stillRunning →
      ((TransportTCP.readDataPacket tp remoteIp remotePort ownerSetAt reads fuel).2 =
          LoopOutcome.terminated ∧
        signalCount
          (TransportTCP.readDataPacket tp remoteIp remotePort ownerSetAt reads fuel).1 = 1 ∧
        CleanExit (TransportTCP.readDataPacket tp remoteIp remotePort ownerSetAt reads fuel).1
          TransportEndValue.DataTransportRecvStopped) ∨
      ((TransportTCP.readDataPacket tp remoteIp remotePort ownerSetAt reads fuel).2 =
          LoopOutcome.panicked ∧
        signalCount
          (TransportTCP.readDataPacket tp remoteIp remotePort ownerSetAt reads fuel).1 = 0 ∧
        closeCount
          (TransportTCP.readDataPacket tp remoteIp remotePort ownerSetAt reads fuel).1 = 0)) := by
  have edata : TransportMulticast.readDataPacket tp ownerSetAt reads fuel =
      runRecvLoop mcastDataDeliver TransportEndValue.DataTransportRecvStopped (some ch)
        { stop := fun i => stopFlagAt ownerSetAt i, read := reads } fuel 0 := by
    have h0 : TransportMulticast.readDataPacket tp ownerSetAt reads fuel =
        runRecvLoop mcastDataDeliver TransportEndValue.DataTransportRecvStopped
          tp.transportEnd
          { stop := fun i => stopFlagAt ownerSetAt i, read := reads } fuel 0 := rfl
    rw [h0, hch]
  have ectrl : TransportMulticast.readCtrlPacket tp ownerSetAt reads fuel =
      runRecvLoop mcastCtrlDeliver TransportEndValue.CtrlTransportRecvStopped (some ch)
        { stop := fun i => stopFlagAt ownerSetAt i, read := reads } fuel 0 := by
    have h0 : TransportMulticast.readCtrlPacket tp ownerSetAt reads fuel =
        runRecvLoop mcastCtrlDeliver TransportEndValue.CtrlTransportRecvStopped
          tp.transportEnd
          { stop := fun i => stopFlagAt ownerSetAt i, read := reads } fuel 0 := rfl
    rw [h0, hch]
  have etcp : TransportTCP.readDataPacket tp remoteIp remotePort ownerSetAt reads fuel =
      runRecvLoop (tcpDeliver remoteIp remotePort)
        TransportEndValue.DataTransportRecvStopped (some ch)
        { stop := fun i => stopFlagAt ownerSetAt i, read := reads } fuel 0 := by
    have h0 : TransportTCP.readDataPacket tp remoteIp remotePort ownerSetAt reads fuel =
        runRecvLoop (tcpDeliver remoteIp remotePort)
          TransportEndValue.DataTransportRecvStopped tp.transportEnd
          { stop := fun i => stopFlagAt ownerSetAt i, read := reads } fuel 0 := rfl
    rw [h0, hch]
  refine ⟨?_, ?_, ?_⟩
  · rw [edata]
    intro hexit
    exact runRecvLoop_clean_exit mcastDataDeliver
      TransportEndValue.DataTransportRecvStopped ch
      { stop := fun i => stopFlagAt ownerSetAt i, read := reads }
      mcastDataDeliver_events
      (fun i d sip spt hr => mcastDataDeliver_ok d sip spt (hb i d sip spt hr))
      fuel 0 hexit
  · rw [ectrl]
    intro hexit
    exact runRecvLoop_clean_exit mcastCtrlDeliver
      TransportEndValue.CtrlTransportRecvStopped ch
      { stop := fun i => stopFlagAt ownerSetAt i, read := reads }
      mcastCtrlDeliver_events
      (fun i d sip spt hr => mcastCtrlDeliver_ok d sip spt (hb i d sip spt hr))
      fuel 0 hexit
  · rw [etcp]
    intro hexit
    exact runRecvLoop_clean_exit_or_panic (tcpDeliver remoteIp remotePort)
      TransportEndValue.DataTransportRecvStopped ch
      { stop := fun i => stopFlagAt ownerSetAt i, read := reads }
      (tcpDeliver_events remoteIp remotePort)
      fuel 0 hexit

/-- Witness for C1 amended: a fatal read at a concrete transport with an
installed end channel makes every loop exit cleanly. -/
theorem claim_C1_witness :
    ((TransportMulticast.readDataPacket
        { dataRecvStop := false, ctrlRecvStop := false, transportEnd := some 0 } none
        (fun _ => ReadResult.fatal) 1).2 = LoopOutcome.terminated ∧
      signalCount (TransportMulticast.readDataPacket
        { dataRecvStop := false, ctrlRecvStop := false, transportEnd := some 0 } none
        (fun _ => ReadResult.fatal) 1).1 = 1 ∧
      CleanExit (TransportMulticast.readDataPacket
        { dataRecvStop := false, ctrlRecvStop := false, transportEnd := some 0 } none
        (fun _ => ReadResult.fatal) 1).1 TransportEndValue.DataTransportRecvStopped) ∧
    ((TransportMulticast.readCtrlPacket
        { dataRecvStop := false, ctrlRecvStop := false, transportEnd := some 0 } none
        (fun _ => ReadResult.fatal) 1).2 = LoopOutcome.terminated ∧
      signalCount (TransportMulticast.readCtrlPacket
        { dataRecvStop := false, ctrlRecvStop := false, transportEnd := some 0 } none
        (fun _ => ReadResult.fatal) 1).1 = 1 ∧
      CleanExit (TransportMulticast.readCtrlPacket
        { dataRecvStop := false, ctrlRecvStop := false, transportEnd := some 0 } none
        (fun _ => ReadResult.fatal) 1).1 TransportEndValue.CtrlTransportRecvStopped) ∧
    (((TransportTCP.readDataPacket
        { dataRecvStop := false, ctrlRecvStop := false, transportEnd := some 0 }
        3 4 none (fun _ => ReadResult.fatal) 1).2 = LoopOutcome.terminated ∧
      signalCount (TransportTCP.readDataPacket
        { dataRecvStop := false, ctrlRecvStop := false, transportEnd := some 0 }
        3 4 none (fun _ => ReadResult.fatal) 1).1 = 1 ∧
      CleanExit (TransportTCP.readDataPacket
        { dataRecvStop := false, ctrlRecvStop := false, transportEnd := some 0 }
        3 4 none (fun _ => ReadResult.fatal) 1).1
        TransportEndValue.DataTransportRecvStopped) ∨
     ((TransportTCP.readDataPacket
        { dataRecvStop := false, ctrlRecvStop := false, transportEnd := some 0 }
        3 4 none (fun _ => ReadResult.fatal) 1).2 = LoopOutcome.panicked ∧
      signalCount (TransportTCP.readDataPacket
        { dataRecvStop := false, ctrlRecvStop := false, transportEnd := some 0 }
        3 4 none (fun _ => ReadResult.fatal) 1).1 = 0 ∧
      closeCount (TransportTCP.readDataPacket
        { dataRecvStop := false, ctrlRecvStop := false, transportEnd := some 0 }
        3 4 none (fun _ => ReadResult.fatal) 1).1 = 0)) := by
  have h := claim_C1_amended
    { dataRecvStop := false, ctrlRecvStop := false, transportEnd := some 0 } 0 none
    (fun _ => ReadResult.fatal) 1 3 4 rfl (fun i d sip spt hr => nomatch hr)
  exact ⟨h.1 (by decide), h.2.1 (by decide), h.2.2 (by decide)⟩

/-- Claim C10: SetEndChannel installs the given channel; a loop on a
transport whose end channel was never installed (nil channel) can never
reach the terminated state — when it exits the loop it still closes its
own socket, but the final send blocks forever and never completes. -/
theorem claim_C10_nil_end_channel (tp : TransportCommon) (ch : Nat)
    (ownerSetAt : Option Nat) (reads : Nat → ReadResult) (fuel : Nat)
    (remoteIp remotePort : Nat) (hnil : tp.transportEnd = none) :
    (TransportCommon.SetEndChannel tp ch).transportEnd = some ch ∧
    ((TransportTCP.readDataPacket tp remoteIp remotePort ownerSetAt reads fuel).2 ≠
        LoopOutcome.terminated ∧
      ((TransportTCP.readDataPacket tp remoteIp remotePort ownerSetAt reads fuel).2 =
          LoopOutcome.blockedOnNilChannel →
        ClosedNoSignal
          (TransportTCP.readDataPacket tp remoteIp remotePort ownerSetAt reads fuel).1)) ∧
    ((TransportMulticast.readDataPacket tp ownerSetAt reads fuel).2 ≠
        LoopOutcome.terminated ∧
      ((TransportMulticast.readDataPacket tp ownerSetAt reads fuel).2 =
          LoopOutcome.blockedOnNilChannel →
        ClosedNoSignal (TransportMulticast.readDataPacket tp ownerSetAt reads fuel).1)) ∧
    ((TransportMulticast.readCtrlPacket tp ownerSetAt reads fuel).2 ≠
        LoopOutcome.terminated ∧
      ((TransportMulticast.readCtrlPacket tp ownerSetAt reads fuel).2 =
          LoopOutcome.blockedOnNilChannel →
        ClosedNoSignal (TransportMulticast.readCtrlPacket tp ownerSetAt reads fuel).1)) := by
  have etcp : TransportTCP.readDataPacket tp remoteIp remotePort ownerSetAt reads fuel =
      runRecvLoop (tcpDeliver remoteIp remotePort)
        TransportEndValue.DataTransportRecvStopped none
        { stop := fun i => stopFlagAt ownerSetAt i, read := reads } fuel 0 := by
    have h0 : TransportTCP.readDataPacket tp remoteIp remotePort ownerSetAt reads fuel =
        runRecvLoop (tcpDeliver remoteIp remotePort)
          TransportEndValue.DataTransportRecvStopped tp.transportEnd
          { stop := fun i => stopFlagAt ownerSetAt i, read := reads } fuel 0 := rfl
    rw [h0, hnil]
  have edata : TransportMulticast.readDataPacket tp ownerSetAt reads fuel =
      runRecvLoop mcastDataDeliver TransportEndValue.DataTransportRecvStopped none
        { stop := fun i => stopFlagAt ownerSetAt i, read := reads } fuel 0 := by
    have h0 : TransportMulticast.readDataPacket tp ownerSetAt reads fuel =
        runRecvLoop mcastDataDeliver TransportEndValue.DataTransportRecvStopped
          tp.transportEnd
          { stop := fun i => stopFlagAt ownerSetAt i, read := reads } fuel 0 := rfl
    rw [h0, hnil]
  have ectrl : TransportMulticast.readCtrlPacket tp ownerSetAt reads fuel =
      runRecvLoop mcastCtrlDeliver TransportEndValue.CtrlTransportRecvStopped none
        { stop := fun i => stopFlagAt ownerSetAt i, read := reads } fuel 0 := by
    have h0 : TransportMulticast.readCtrlPacket tp ownerSetAt reads fuel =
        runRecvLoop mcastCtrlDeliver TransportEndValue.CtrlTransportRecvStopped
          tp.transportEnd
          { stop := fun i => stopFlagAt ownerSetAt i, read := reads } fuel 0 := rfl
    rw [h0, hnil]
  refine ⟨rfl, ?_, ?_, ?_⟩
  · rw [etcp]
    obtain ⟨h1, h2, _⟩ := runRecvLoop_shape (tcpDeliver remoteIp remotePort)
      TransportEndValue.DataTransportRecvStopped none
      { stop := fun i => stopFlagAt ownerSetAt i, read := reads }
      (tcpDeliver_events remoteIp remotePort) fuel 0
    refine ⟨?_, fun ho => (h2 ho).1⟩
    intro ho
    obtain ⟨_, hne⟩ := h1 ho
    exact hne rfl
  · rw [edata]
    obtain ⟨h1, h2, _⟩ := runRecvLoop_shape mcastDataDeliver
      TransportEndValue.DataTransportRecvStopped none
      { stop := fun i => stopFlagAt ownerSetAt i, read := reads }
      mcastDataDeliver_events fuel 0
    refine ⟨?_, fun ho => (h2 ho).1⟩
    intro ho
    obtain ⟨_, hne⟩ := h1 ho
    exact hne rfl
  · rw [ectrl]
    obtain ⟨h1, h2, _⟩ := runRecvLoop_shape mcastCtrlDeliver
      TransportEndValue.CtrlTransportRecvStopped none
      { stop := fun i => stopFlagAt ownerSetAt i, read := reads }
      mcastCtrlDeliver_events fuel 0
    refine ⟨?_, fun ho => (h2 ho).1⟩
    intro ho
    obtain ⟨_, hne⟩ := h1 ho
    exact hne rfl

/-- Witness for C10 at a concrete transport with no installed channel
and a fatal first read. -/
theorem claim_C10_witness :
    (TransportCommon.SetEndChannel
        { dataRecvStop := false, ctrlRecvStop := false, transportEnd := none } 5).transportEnd =
      some 5 ∧
    (TransportTCP.readDataPacket
        { dataRecvStop := false, ctrlRecvStop := false, transportEnd := none }
        3 4 none (fun _ => ReadResult.fatal) 1).2 ≠ LoopOutcome.terminated ∧
    ClosedNoSignal (TransportTCP.readDataPacket
        { dataRecvStop := false, ctrlRecvStop := false, transportEnd := none }
        3 4 none (fun _ => ReadResult.fatal) 1).1 ∧
    (TransportMulticast.readDataPacket
        { dataRecvStop := false, ctrlRecvStop := false, transportEnd := none }
        none (fun _ => ReadResult.fatal) 1).2 ≠ LoopOutcome.terminated ∧
    ClosedNoSignal (TransportMulticast.readDataPacket
        { dataRecvStop := false, ctrlRecvStop := false, transportEnd := none }
        none (fun _ => ReadResult.fatal) 1).1 ∧
    (TransportMulticast.readCtrlPacket
        { dataRecvStop := false, ctrlRecvStop := false, transportEnd := none }
        none (fun _ => ReadResult.fatal) 1).2 ≠ LoopOutcome.terminated ∧
    ClosedNoSignal (TransportMulticast.readCtrlPacket
        { dataRecvStop := false, ctrlRecvStop := false, transportEnd := none }
        none (fun _ => ReadResult.fatal) 1).1 := by
  have h := claim_C10_nil_end_channel
    { dataRecvStop := false, ctrlRecvStop := false, transportEnd := none } 5 none
    (fun _ => ReadResult.fatal) 1 3 4 rfl
  exact ⟨h.1, h.2.1.1, h.2.1.2 (by decide), h.2.2.1.1, h.2.2.1.2 (by decide),
    h.2.2.2.1, h.2.2.2.2 (by decide)⟩

end GoRtp
